import Mathlib

/-!
Shallow embedding of src/robustness-tester.py, a fault-injection and
recovery-verification engine for processes supervised by systemd.

OS interactions are modelled as explicit oracle inputs:
  * the process table is a function from process names to the list of pids
    that currently bear that name (what the pidof subprocess reports);
  * per-iteration observations of a perturbed process (is the pid alive,
    what do the /proc status fields say) are functions from the iteration
    index to the observed value;
  * os.kill outcomes and random.shuffle are likewise passed in as inputs.

Side effects (print plus journal, signal delivery, sleeps, ptrace calls)
are embedded as explicit event traces, and Python exceptions as Except
values that propagate the way uncaught exceptions do in the source.
-/

/-- Python exceptions that the embedded code can raise.
`nameErrorFailure` models the NameError raised when the except clause of
`is_process_debugged_no_zombie` evaluates the undefined identifier
`Failure` (line 238 of the source); `typeErrorLogArgs` models the
TypeError raised by line 298, which calls the one-parameter `log`
function with two arguments. -/
inductive PyErr
  | nameErrorFailure
  | typeErrorLogArgs
deriving DecidableEq

/-- An observable side effect of the engine. `log msg` is a call of the
`log` function (its timestamp/journal behaviour is modelled separately by
`log_output`); `signal p s` is a delivered os.kill(p, s); `sleep n` is a
time.sleep(n); `ptrace r p` is libc.ptrace(r, p, None, None); `waitpid p`
is os.waitpid(p, 0). -/
inductive Event
  | log (msg : String)
  | signal (pid : Nat) (sig : Nat)
  | sleep (seconds : Nat)
  | ptrace (request : Nat) (pid : Nat)
  | waitpid (pid : Nat)
deriving DecidableEq

/-- PTRACE_ATTACH constant from the source. -/
def PTRACE_ATTACH : Nat := 16

/-- PTRACE_DETACH constant from the source. -/
def PTRACE_DETACH : Nat := 17

/-- SIGTERM signal number (signal.SIGTERM on Linux). -/
def SIGTERM : Nat := 15

/-- SIGKILL signal number (signal.SIGKILL on Linux). -/
def SIGKILL : Nat := 9

/-- Interval between full test cycles (source: 60 * 10). -/
def SLEEP_CHECK_INTERVAL : Nat := 60 * 10

/-- Inter-target delay after each signal-probe target (source: 60 * 5). -/
def SLEEP_BETWEEN_C_APPLICATION_SIGNAL_TEST : Nat := 60 * 5

/-- Safe-shutdown delay after delivering a termination signal. -/
def SLEEP_SIGTERM_SAFE_SHUTDOWN_TIME : Nat := 5

/-- The static APPLICATIONS catalog of the source, as a function from the
bucket tag to the configured target-name list. -/
def APPLICATIONS : String → List String := fun bucket =>
  if bucket = "sigkill" then ["foo", "bar"]
  else if bucket = "sigterm" then ["foo", "bar"]
  else if bucket = "ptrace-stop" then ["runner"]
  else []

/-- applications_shuffled(bucket): random.shuffle permutes a copy of the
catalog entry in place; the permutation chosen by the random source is
passed in as the function `shuffle`. -/
def applications_shuffled (shuffle : List String → List String)
    (bucket : String) : List String :=
  shuffle (APPLICATIONS bucket)

/-- Does the character list `needle` occur at the head of `hay`. -/
def subAt : List Char → List Char → Bool
  | [], _ => true
  | _ :: _, [] => false
  | a :: as, b :: bs => a == b && subAt as bs

/-- Does the character list `needle` occur anywhere inside `hay`. -/
def hasSub (needle : List Char) : List Char → Bool
  | [] => subAt needle []
  | b :: bs => subAt needle (b :: bs) || hasSub needle bs

/-- Python substring test `needle in hay` on strings. -/
def strContains (hay needle : String) : Bool :=
  hasSub needle.toList hay.toList

/-- Result of one attempt to read /proc/pid/status (proc_status_get).
`ok tracerpid state` holds the two fields the engine uses, already parsed
the way the source parses them (int(data[\x7btracerpid\x7d]) and the raw
state string such as "Z (zombie)"); `unreadable` is the case where the
open or read raises IOError/OSError because the process exited between
the existence check and the metadata read. -/
inductive StatusRead
  | ok (tracerpid : Nat) (state : String)
  | unreadable
deriving DecidableEq

/-- is_process_debugged_no_zombie, lines 230-244 of the source. On a
readable status it returns False when tracerpid is 0, False when the
state contains "zombie", and True otherwise. On an unreadable status the
source tries to match the raised IOError/OSError against the tuple
`(IOError, OSError, Failure)`; evaluating the undefined name `Failure`
raises NameError, so the function raises instead of returning False. -/
def is_process_debugged_no_zombie (s : StatusRead) : Except PyErr Bool :=
  match s with
  | StatusRead.unreadable => Except.error PyErr.nameErrorFailure
  | StatusRead.ok tracerpid state =>
      if tracerpid = 0 then Except.ok false
      else if strContains state "zombie" then Except.ok false
      else Except.ok true

/-- The pidof subprocess: prints the pids of every process currently
bearing `name` and exits nonzero when there are none, which makes
subprocess.check_output raise CalledProcessError. The OS process table
is the oracle `table`. -/
def pidof (table : String → List Nat) (name : String) :
    Except Unit (List Nat) :=
  if table name = [] then Except.error () else Except.ok (table name)

/-- pids_by_process_name, lines 101-107 of the source: returns the pid
list on success and catches CalledProcessError, returning None. -/
def pids_by_process_name (table : String → List Nat) (name : String) :
    Option (List Nat) :=
  match pidof table name with
  | Except.ok l => some l
  | Except.error _ => none

/-- Python truthiness of an Optional pid list: None and the empty list
are falsy, a non-empty list is truthy (the `if not pids:` tests). -/
def pyTruthy : Option (List Nat) → Bool
  | some (_ :: _) => true
  | _ => false

/-- Python list.sort(): sorts the list in place and returns None. The
embedding returns the pair of the sorted list and the returned None
value (modelled as Unit). -/
def pySortInPlace (xs : List Nat) : List Nat × Unit :=
  (List.insertionSort (· ≤ ·) xs, ())

/-- Comma-join of a pid list, as in the join expressions of line 169. -/
def joinPids (xs : List Nat) : String :=
  String.intercalate ", " (xs.map toString)

/-- The recovery-verification tail of one sigterm handle, lines 160-174
of the source, as a function of the pre-perturbation pid list and the
re-resolved pid list. The comparison on line 165 is
`new_pids.sort() == pids.sort()`: both sorts mutate their list in place
and return None, so the comparison compares None with None and is always
true, and the joins on lines 169-170 both read the (now sorted) old
list `pids`. -/
def check_sigterm_verify (app : String) (pids : List Nat)
    (new_pids : Option (List Nat)) : List Event :=
  match new_pids with
  | some (n :: ns) =>
      let sortedNew := pySortInPlace (n :: ns)
      let sortedOld := pySortInPlace pids
      [Event.log ("Application \"" ++ app ++ "\" is alive, please check that it was properly"),
       Event.log "finalized (no memory leaks, closing all resources, ...) and",
       Event.log "successfully restart by systemd (please take a look in the journal)"]
      ++ (if sortedNew.2 = sortedOld.2 then
            [Event.log "Warning: new PID and old PIDs are identical - that is legal and to",
             Event.log "some degree expected! But please make sure the process was *really*",
             Event.log "restarted after sending SIGTERM"]
          else [])
      ++ [Event.log ("Previous PID: " ++ joinPids sortedOld.1 ++ ", New PID: " ++ joinPids sortedOld.1)]
  | _ =>
      [Event.log ("application \"" ++ app ++ "\" is not detectable! Please check journal for application specific entries")]

/-- Processing of one sigterm handle, lines 151-174: announce, deliver
SIGTERM (a delivery failure is caught and logged with the exception text
`errMsg`), sleep the safe-shutdown delay, re-resolve and verify. -/
def check_sigterm_pid (app : String) (pids : List Nat) (pid : Nat)
    (killOk : Bool) (errMsg : String) (new_pids : Option (List Nat)) :
    List Event :=
  [Event.log ("Send process " ++ app ++ " [pid: " ++ toString pid ++ "] SIGTERM signal")]
  ++ (if killOk then [Event.signal pid SIGTERM]
      else [Event.log ("catched exception during SIGTERM signal: " ++ errMsg)])
  ++ [Event.log ("Now sleeping " ++ toString SLEEP_SIGTERM_SAFE_SHUTDOWN_TIME ++ " seconds for process shutdown & restarting"),
      Event.sleep SLEEP_SIGTERM_SAFE_SHUTDOWN_TIME]
  ++ check_sigterm_verify app pids new_pids

/-- Oracle bundle for one signal-probe run: the first pidof resolution per
target, the os.kill outcome and exception text per target and pid, and
the pidof re-resolution done after the safe-shutdown sleep for each
target and perturbed pid. -/
structure SigOracle where
  resolve : String → Option (List Nat)
  killOk : String → Nat → Bool
  errMsg : String → Nat → String
  reresolve : String → Nat → Option (List Nat)

/-- Processing of one sigterm target, lines 142-177: announce, resolve;
when nothing is found log the anomaly and continue (no signal, no sleep);
otherwise process every handle and then pause the inter-target delay. -/
def check_sigterm_app (σ : SigOracle) (app : String) : List Event :=
  Event.log ("next checked application: \"" ++ app ++ "\"") ::
  match σ.resolve app with
  | some (p :: ps) =>
      ((p :: ps).flatMap (fun pid =>
        check_sigterm_pid app (p :: ps) pid (σ.killOk app pid)
          (σ.errMsg app pid) (σ.reresolve app pid)))
      ++ [Event.log "Please check now if overall system is working properly again (IPC, ...)",
          Event.log ("Robustness-Tester will now pause for " ++ toString SLEEP_BETWEEN_C_APPLICATION_SIGNAL_TEST ++ " seconds"),
          Event.sleep SLEEP_BETWEEN_C_APPLICATION_SIGNAL_TEST]
  | _ => [Event.log ("Error, process \"" ++ app ++ "\" should be there, but cannot find it")]

/-- check_sigterm over an already-shuffled target list. -/
def check_sigterm_run (σ : SigOracle) (apps : List String) : List Event :=
  Event.log "Test Suite: Sigterm Checks" :: apps.flatMap (check_sigterm_app σ)

/-- Processing of one sigkill handle, lines 197-212: announce, deliver
SIGKILL (failures caught and logged), sleep the safe-shutdown delay,
re-resolve; a truthy re-resolution logs only the respawn success message,
a falsy one logs the not-detectable error. -/
def check_sigkill_pid (app : String) (pid : Nat) (killOk : Bool)
    (errMsg : String) (new_pids : Option (List Nat)) : List Event :=
  [Event.log ("Send process " ++ app ++ " [pid: " ++ toString pid ++ "] SIGKILL signal")]
  ++ (if killOk then [Event.signal pid SIGKILL]
      else [Event.log ("Catched exception during kill signal: " ++ errMsg)])
  ++ [Event.log ("Now sleeping " ++ toString SLEEP_SIGTERM_SAFE_SHUTDOWN_TIME ++ " seconds for process shutdown & restarting"),
      Event.sleep SLEEP_SIGTERM_SAFE_SHUTDOWN_TIME]
  ++ match new_pids with
     | some (_ :: _) =>
         [Event.log ("Application \"" ++ app ++ "\" was successfully respawed!")]
     | _ =>
         [Event.log ("Error: application \"" ++ app ++ "\" is not detectable! Please check journal for application specific entries")]

/-- Processing of one sigkill target, lines 187-216. -/
def check_sigkill_app (σ : SigOracle) (app : String) : List Event :=
  Event.log ("Next checked application: \"" ++ app ++ "\"") ::
  match σ.resolve app with
  | some (p :: ps) =>
      ((p :: ps).flatMap (fun pid =>
        check_sigkill_pid app pid (σ.killOk app pid) (σ.errMsg app pid)
          (σ.reresolve app pid)))
      ++ [Event.log "Please check now if overall system is working properly again (IPC, ...)",
          Event.log ("Robustness-Tester will now pause for " ++ toString SLEEP_BETWEEN_C_APPLICATION_SIGNAL_TEST ++ " seconds"),
          Event.sleep SLEEP_BETWEEN_C_APPLICATION_SIGNAL_TEST]
  | _ => [Event.log ("Error, process \"" ++ app ++ "\" should be there, but cannot find it")]

/-- The target list of one sigkill phase, lines 184-185 of the source:
the shuffled sigkill catalog entry followed by the (independently)
shuffled sigterm catalog entry. -/
def check_sigkill_agenda (s₁ s₂ : List String → List String) :
    List String :=
  applications_shuffled s₁ "sigkill" ++ applications_shuffled s₂ "sigterm"

/-- check_sigkill, lines 180-216 of the source. -/
def check_sigkill_run (σ : SigOracle) (s₁ s₂ : List String → List String) :
    List Event :=
  Event.log "Test Suite: Sigkill Checks" ::
    (check_sigkill_agenda s₁ s₂).flatMap (check_sigkill_app σ)

/-- Iteration budget of the freeze-probe polling loop (source local
variable `iterations`). -/
def ptrace_iterations : Nat := 10

/-- Poll interval of the freeze-probe polling loop in seconds (source
local variable `sleeptime`). -/
def ptrace_sleeptime : Nat := 5

/-- Log text of line 258 of the source. -/
def ptraceNotAliveMsg (app : String) (pid : Nat) : String :=
  "Application \"" ++ app ++ "\" with pid:" ++ toString pid ++ " not alive - seems to be restarted"

/-- Log text of line 262 of the source. -/
def ptraceNotDebuggedMsg (app : String) (pid : Nat) : String :=
  "Application \"" ++ app ++ "\" with pid:" ++ toString pid ++ " not debugged (anymore)"

/-- Log text of line 265 of the source. -/
def ptraceStillMsg (app : String) (pid : Nat) : String :=
  "Application \"" ++ app ++ "\" with pid:" ++ toString pid ++ " still alive and ptrace attached stopped!"

/-- Log text of line 267 of the source, for loop index `probe`. -/
def ptraceWaitMoreMsg (probe : Nat) : String :=
  "Wait additional " ++ toString (ptrace_iterations * ptrace_sleeptime - probe * ptrace_sleeptime) ++ " seconds"

/-- The `for probe in range(iterations)` loop of
ptrace_stop_wait_until_killed, lines 256-271. `probe` is the current
loop index and `fuel` the remaining iterations; `alive i` is what
pid_alive reports at iteration i and `status i` what proc_status_get
reports there. Returns the emitted events together with either the
propagated exception or the returned bool paired with the number of
iterations that were entered. -/
def ptraceLoopAux (app : String) (pid : Nat) (alive : Nat → Bool)
    (status : Nat → StatusRead) :
    Nat → Nat → List Event × Except PyErr (Bool × Nat)
  | probe, 0 => ([], Except.ok (false, probe))
  | probe, Nat.succ fuel =>
      if alive probe = false then
        ([Event.log (ptraceNotAliveMsg app pid)], Except.ok (true, probe + 1))
      else
        match is_process_debugged_no_zombie (status probe) with
        | Except.error e => ([], Except.error e)
        | Except.ok false =>
            ([Event.log (ptraceNotDebuggedMsg app pid)], Except.ok (true, probe + 1))
        | Except.ok true =>
            let rest := ptraceLoopAux app pid alive status (probe + 1) fuel
            (Event.log (ptraceStillMsg app pid) ::
             Event.log (ptraceWaitMoreMsg probe) ::
             Event.sleep ptrace_sleeptime :: rest.1, rest.2)

/-- ptrace_stop_wait_until_killed, lines 247-271 of the source. -/
def ptrace_stop_wait_until_killed (app : String) (pid : Nat)
    (alive : Nat → Bool) (status : Nat → StatusRead) :
    List Event × Except PyErr (Bool × Nat) :=
  let r := ptraceLoopAux app pid alive status 0 ptrace_iterations
  (Event.log ("Wait " ++ toString (ptrace_iterations * ptrace_sleeptime) ++ " seconds until application is restarted") :: r.1, r.2)

/-- An iteration at which the polling loop exits early: the process is
observed not alive, or the status read succeeds and reports
not-debugged-or-zombie. -/
def loopFlip (alive : Nat → Bool) (status : Nat → StatusRead) (i : Nat) :
    Prop :=
  alive i = false ∨ is_process_debugged_no_zombie (status i) = Except.ok false

/-- Events of lines 289-291 of the source: the announce log, the
ptrace(ATTACH) call and the os.waitpid call for one handle. -/
def ptraceHead (app : String) (pid : Nat) : List Event :=
  [Event.log ("Stop \"" ++ app ++ "\" [pid: " ++ toString pid ++ "] now with ptrace(ATTACH, pid, ...)"),
   Event.ptrace PTRACE_ATTACH pid, Event.waitpid pid]

/-- The stop-classification log of lines 293-296: clean stop when the
stop signal is 19 (SIGSTOP), otherwise the unusual-status warning. -/
def ptraceStopLog (app : String) (pid : Nat) (wstopsig : Nat) : Event :=
  Event.log (if wstopsig = 19 then
      "Application " ++ app ++ " [pid: " ++ toString pid ++ "] stopped!"
    else
      "Application " ++ app ++ " [pid: " ++ toString pid ++ "] stopped with unusal status!")

/-- The outcome logs of lines 303-307, depending on the loop result. -/
def ptraceOutcomeLogs (restarted : Bool) : List Event :=
  if restarted = false then
    [Event.log "Noes, application still stopped and not restarted!",
     Event.log "Will detach the application now!"]
  else
    [Event.log "Application IS restarted or at least not stopped anymore - fine!"]

/-- Processing of one freeze-probe handle, lines 289-310 of the source:
announce, ptrace(ATTACH), waitpid; when WIFSTOPPED is false, line 298
calls the one-parameter `log` with two arguments, raising TypeError; when
it is true, log the (un)usual-stop message, run the polling loop, and on
its normal return log the outcome and ptrace(DETACH). An exception from
the polling loop propagates and skips the detach. `wifstopped` and
`wstopsig` are what os.waitpid reports for the stop. -/
def check_ptrace_stop_pid (app : String) (pid : Nat) (wifstopped : Bool)
    (wstopsig : Nat) (alive : Nat → Bool) (status : Nat → StatusRead) :
    List Event × Except PyErr Bool :=
  if wifstopped = false then
    (ptraceHead app pid, Except.error PyErr.typeErrorLogArgs)
  else
    match (ptrace_stop_wait_until_killed app pid alive status).2 with
    | Except.error e =>
        (ptraceHead app pid ++ [ptraceStopLog app pid wstopsig]
          ++ (ptrace_stop_wait_until_killed app pid alive status).1,
         Except.error e)
    | Except.ok (restarted, _) =>
        (ptraceHead app pid ++ [ptraceStopLog app pid wstopsig]
          ++ (ptrace_stop_wait_until_killed app pid alive status).1
          ++ ptraceOutcomeLogs restarted
          ++ [Event.ptrace PTRACE_DETACH pid],
         Except.ok restarted)

/-- Number of ptrace events with the given request code and pid in a
trace; counts structurally, so it is insensitive to log texts. -/
def countPtrace (req pid : Nat) : List Event → Nat
  | [] => 0
  | Event.ptrace r p :: es =>
      (if r = req ∧ p = pid then 1 else 0) + countPtrace req pid es
  | _ :: es => countPtrace req pid es

/-- One field set of a datetime value: the fields used by the strftime
format %H:%M:%S.%f. datetime guarantees 0 ≤ microsecond < 1000000. -/
structure TimeOfDay where
  hour : Nat
  minute : Nat
  second : Nat
  microsecond : Nat

/-- The clock available to the process: datetime.datetime.utcnow() reads
`utcnow`; the local wall time `localnow` exists in the environment but is
not consulted by the source. -/
structure Clock where
  utcnow : TimeOfDay
  localnow : TimeOfDay

/-- The decimal digit character for n mod 10. -/
def digitChar (n : Nat) : Char := Char.ofNat (48 + n % 10)

/-- Zero-padded two-digit decimal rendering (strftime %H, %M, %S). -/
def fmt2 (n : Nat) : List Char := [digitChar (n / 10), digitChar n]

/-- Zero-padded six-digit decimal rendering (strftime %f). -/
def fmt6 (n : Nat) : List Char :=
  [digitChar (n / 100000), digitChar (n / 10000), digitChar (n / 1000),
   digitChar (n / 100), digitChar (n / 10), digitChar n]

/-- dt.strftime of the format %H:%M:%S.%f as a character list. -/
def strftime_HMSf (t : TimeOfDay) : List Char :=
  fmt2 t.hour ++ ':' :: fmt2 t.minute ++ ':' :: fmt2 t.second ++ '.' :: fmt6 t.microsecond

/-- The Python slice s[:-k] on a character list. -/
def pySliceDropLast (k : Nat) (l : List Char) : List Char :=
  l.take (l.length - k)

/-- The line printed by `log`, lines 95-97 of the source: the utcnow
timestamp rendered with %H:%M:%S.%f, sliced with [:-3], then
" - " and the message. -/
def log_line (now : TimeOfDay) (msg : String) : String :=
  String.mk (pySliceDropLast 3 (strftime_HMSf now)) ++ " - " ++ msg

/-- The `log` function, lines 92-98 of the source: returns the pair of
the line printed to the standard stream and the single payload handed to
systemd.journal.send (no retry, one emission per call). -/
def log_output (c : Clock) (msg : String) : String × String :=
  (log_line c.utcnow msg, msg)

/-- Does an event carry a log message containing the string `s`. -/
def eventMentions (s : String) : Event → Bool
  | Event.log m => strContains m s
  | _ => false

/-- Concrete process table with one live worker process and no daemon
process, used to instantiate the process-lookup theorem. -/
def tableW : String → List Nat :=
  fun name => if name = "worker" then [100] else []

/-- Concrete liveness observations for the polling-loop theorem: the
process stays alive for the first three iterations and is gone at the
fourth. -/
def aliveW5 : Nat → Bool := fun i => decide (i < 3)

/-- Concrete status observations for the polling-loop theorem: always
readable, traced and not a zombie. -/
def statusW5 : Nat → StatusRead := fun _ => StatusRead.ok 7 "S (sleeping)"

/-- Liveness observations for the polling-loop counterexample: the pid
existence check always succeeds. -/
def aliveC5 : Nat → Bool := fun _ => true

/-- Status observations for the polling-loop counterexample: the very
first /proc status read fails (the process exited between the existence
check and the metadata read). -/
def statusC5 : Nat → StatusRead :=
  fun i => if i = 0 then StatusRead.unreadable else StatusRead.ok 1 "S (sleeping)"

/-- Liveness observations for the attach/detach theorems: always alive. -/
def aliveW6 : Nat → Bool := fun _ => true

/-- Status observations for the attach/detach pairing theorem: traced and
non-zombie through every iteration, so the loop exhausts its budget. -/
def statusW6 : Nat → StatusRead := fun _ => StatusRead.ok 1 "S (sleeping)"

/-- Status observations for the attach/detach counterexample: readable on
the first iteration, unreadable from the second on. -/
def statusC6 : Nat → StatusRead :=
  fun i => if i = 0 then StatusRead.ok 1 "S (sleeping)" else StatusRead.unreadable

/-- Signal-probe oracle in which no target resolves to any process. -/
def sigOracleNotFound : SigOracle :=
  { resolve := fun _ => none
    killOk := fun _ _ => true
    errMsg := fun _ _ => ""
    reresolve := fun _ _ => none }

/-- Clock for the event-sink counterexample: the UTC wall time and the
local wall time differ by one hour. -/
def clockCE : Clock :=
  { utcnow := { hour := 12, minute := 0, second := 0, microsecond := 0 }
    localnow := { hour := 13, minute := 0, second := 0, microsecond := 0 } }

/-- C3: process lookup never raises; with at least one live process it
returns exactly the non-empty pid list of the process table, and with
none it returns None, the "not found" signal (the CalledProcessError of
the failing pidof is caught inside the function). -/
theorem pids_by_process_name_spec (table : String → List Nat)
    (name₁ name₂ : String) (h₁ : table name₁ ≠ []) (h₂ : table name₂ = []) :
    (pids_by_process_name table name₁ = some (table name₁) ∧ table name₁ ≠ [])
    ∧ pids_by_process_name table name₂ = none := by
  refine ⟨⟨?_, h₁⟩, ?_⟩ <;> simp [pids_by_process_name, pidof, h₁, h₂]

/-- Witness for the process-lookup theorem on a concrete table with one
worker process and no daemon process. -/
theorem pids_by_process_name_spec_witness :
    (tableW "worker" ≠ [] ∧ tableW "daemon" = [])
    ∧ ((pids_by_process_name tableW "worker" = some (tableW "worker")
          ∧ tableW "worker" ≠ [])
        ∧ pids_by_process_name tableW "daemon" = none) :=
  ⟨⟨by decide, by decide⟩,
   pids_by_process_name_spec tableW "worker" "daemon" (by decide) (by decide)⟩

/-- C4: when the /proc status read fails, is_process_debugged_no_zombie
does not return the not-debugged answer False as its own docstring and
the spec require; it raises NameError, because the except clause names
the undefined identifier Failure. -/
theorem debug_state_unreadable_raises :
    is_process_debugged_no_zombie StatusRead.unreadable
        = Except.error PyErr.nameErrorFailure
    ∧ is_process_debugged_no_zombie StatusRead.unreadable ≠ Except.ok false :=
  ⟨rfl, fun h => nomatch h⟩

/-- C1: with old pid set \x7b100\x7d and re-resolved pid set \x7b200\x7d
(non-empty and disjoint from the old set), the sigterm verification
nevertheless emits the identical-PIDs warning, because line 165 compares
the None results of list.sort. The claim (and the warning text itself)
says the warning must not be emitted here. -/
theorem sigterm_warning_on_disjoint_pids :
    (∀ p ∈ [(200 : Nat)], p ∉ [(100 : Nat)])
    ∧ Event.log "Warning: new PID and old PIDs are identical - that is legal and to"
        ∈ check_sigterm_verify "foo" [100] (some [200]) := by
  decide

/-- C2: with old pid set \x7b5\x7d and re-resolved pid set \x7b9\x7d the
sets are unequal, yet the sigterm verification emits the identical-PIDs
warning; the claim says the warning is emitted only when the re-resolved
set equals the pre-perturbation set. -/
theorem sigterm_warning_despite_unequal_pids :
    [(9 : Nat)] ≠ [5]
    ∧ Event.log "Warning: new PID and old PIDs are identical - that is legal and to"
        ∈ check_sigterm_verify "bar" [5] (some [9]) := by
  decide

/-- C9 counterexample: with a clock whose UTC time is 12:00:00.000 and
whose local time is 13:00:00.000, the emitted line is prefixed with the
UTC time, not with the local time the claim names. -/
theorem log_line_uses_utc_not_local :
    (log_output clockCE "Test Suite: Sigterm Checks").1
        = "12:00:00.000 - Test Suite: Sigterm Checks"
    ∧ log_line clockCE.localnow "Test Suite: Sigterm Checks"
        = "13:00:00.000 - Test Suite: Sigterm Checks"
    ∧ (log_output clockCE "Test Suite: Sigterm Checks").1
        ≠ log_line clockCE.localnow "Test Suite: Sigterm Checks" := by
  refine ⟨by decide, by decide, by decide⟩

/-- C9 as amended: every emitted line is the UTC time of the call with
millisecond precision (hours, minutes, seconds, and exactly the three
leading digits of the six-digit microsecond field, which the [:-3] slice
keeps), followed by " - " and the message; the very same message is the
single payload handed to the journal facility. -/
theorem log_line_format (c : Clock) (msg : String) :
    (log_output c msg).1
      = String.mk (fmt2 c.utcnow.hour ++ ':' :: fmt2 c.utcnow.minute
          ++ ':' :: fmt2 c.utcnow.second
          ++ '.' :: [digitChar (c.utcnow.microsecond / 100000),
                     digitChar (c.utcnow.microsecond / 10000),
                     digitChar (c.utcnow.microsecond / 1000)])
        ++ " - " ++ msg
    ∧ (log_output c msg).2 = msg :=
  ⟨rfl, rfl⟩

/-- C8 counterexample: target worker with old pid 100 is killed and comes
back as pid 200; the sigkill handle processing logs the respawn success,
and its events mention the old pid 100, but no emitted event mentions the
new pid 200, contradicting the claim that both identifiers are logged. -/
theorem sigkill_new_pid_not_logged :
    ((check_sigkill_pid "worker" 100 true "" (some [200])).all
        (fun e => ! eventMentions "200" e)) = true
    ∧ ((check_sigkill_pid "worker" 100 true "" (some [200])).any
        (eventMentions "100")) = true
    ∧ Event.log "Application \"worker\" was successfully respawed!"
        ∈ check_sigkill_pid "worker" 100 true "" (some [200]) := by
  refine ⟨by decide, by decide, by decide⟩

/-- C8 as amended: when the forceful-terminate probe re-resolves a
non-empty pid set, the respawn success message is logged and the events
contain the old identifier in the send-signal log, but the events are
identical for any two truthy re-resolutions, so the new identifiers
appear nowhere in them. -/
theorem sigkill_restart_logging (app : String) (pid : Nat) (killOk : Bool)
    (errMsg : String) (n₁ n₂ : Option (List Nat))
    (h₁ : pyTruthy n₁ = true) (h₂ : pyTruthy n₂ = true) :
    check_sigkill_pid app pid killOk errMsg n₁
        = check_sigkill_pid app pid killOk errMsg n₂
    ∧ Event.log ("Send process " ++ app ++ " [pid: " ++ toString pid ++ "] SIGKILL signal")
        ∈ check_sigkill_pid app pid killOk errMsg n₁
    ∧ Event.log ("Application \"" ++ app ++ "\" was successfully respawed!")
        ∈ check_sigkill_pid app pid killOk errMsg n₁ := by
  match n₁, h₁ with
  | some (a₁ :: l₁), _ =>
    match n₂, h₂ with
    | some (a₂ :: l₂), _ =>
      refine ⟨rfl, ?_, ?_⟩ <;> cases killOk <;> simp [check_sigkill_pid]

/-- Witness for the amended sigkill logging theorem at a concrete input,
with old pid 100 and two different truthy re-resolutions. -/
theorem sigkill_restart_logging_witness :
    (pyTruthy (some [200]) = true ∧ pyTruthy (some [300]) = true)
    ∧ (check_sigkill_pid "worker" 100 true "" (some [200])
          = check_sigkill_pid "worker" 100 true "" (some [300])
        ∧ Event.log ("Send process " ++ "worker" ++ " [pid: " ++ toString 100 ++ "] SIGKILL signal")
            ∈ check_sigkill_pid "worker" 100 true "" (some [200])
        ∧ Event.log ("Application \"" ++ "worker" ++ "\" was successfully respawed!")
            ∈ check_sigkill_pid "worker" 100 true "" (some [200])) :=
  ⟨⟨by decide, by decide⟩,
   sigkill_restart_logging "worker" 100 true "" (some [200]) (some [300])
     (by decide) (by decide)⟩

/-- C7: a signal-probe target that resolves to no process (None or the
empty list) produces exactly the announce log and the anomaly log: no
signal is delivered, no sleep of any length is incurred, and the run
continues with the remaining targets unchanged; the same holds for the
forceful probe. -/
theorem signal_probe_notfound_skips (σ : SigOracle) (app : String)
    (l₁ l₂ : List String)
    (h : σ.resolve app = none ∨ σ.resolve app = some []) :
    check_sigterm_app σ app
        = [Event.log ("next checked application: \"" ++ app ++ "\""),
           Event.log ("Error, process \"" ++ app ++ "\" should be there, but cannot find it")]
    ∧ (∀ p s, Event.signal p s ∉ check_sigterm_app σ app)
    ∧ (∀ n, Event.sleep n ∉ check_sigterm_app σ app)
    ∧ check_sigterm_run σ (l₁ ++ app :: l₂)
        = Event.log "Test Suite: Sigterm Checks" ::
            (l₁.flatMap (check_sigterm_app σ) ++ check_sigterm_app σ app
              ++ l₂.flatMap (check_sigterm_app σ))
    ∧ check_sigkill_app σ app
        = [Event.log ("Next checked application: \"" ++ app ++ "\""),
           Event.log ("Error, process \"" ++ app ++ "\" should be there, but cannot find it")]
    ∧ (∀ p s, Event.signal p s ∉ check_sigkill_app σ app)
    ∧ (∀ n, Event.sleep n ∉ check_sigkill_app σ app) := by
  have ht : check_sigterm_app σ app
      = [Event.log ("next checked application: \"" ++ app ++ "\""),
         Event.log ("Error, process \"" ++ app ++ "\" should be there, but cannot find it")] := by
    rcases h with h | h <;> simp [check_sigterm_app, h]
  have hk : check_sigkill_app σ app
      = [Event.log ("Next checked application: \"" ++ app ++ "\""),
         Event.log ("Error, process \"" ++ app ++ "\" should be there, but cannot find it")] := by
    rcases h with h | h <;> simp [check_sigkill_app, h]
  refine ⟨ht, ?_, ?_, ?_, hk, ?_, ?_⟩
  · intro p s; rw [ht]; simp
  · intro n; rw [ht]; simp
  · simp [check_sigterm_run]
  · intro p s; rw [hk]; simp
  · intro n; rw [hk]; simp

/-- Witness for the not-found skip theorem: oracle in which no process
exists, target daemon, one further target after it. -/
theorem signal_probe_notfound_skips_witness :
    (sigOracleNotFound.resolve "daemon" = none
      ∨ sigOracleNotFound.resolve "daemon" = some [])
    ∧ (check_sigterm_app sigOracleNotFound "daemon"
        = [Event.log ("next checked application: \"" ++ "daemon" ++ "\""),
           Event.log ("Error, process \"" ++ "daemon" ++ "\" should be there, but cannot find it")]
    ∧ (∀ p s, Event.signal p s ∉ check_sigterm_app sigOracleNotFound "daemon")
    ∧ (∀ n, Event.sleep n ∉ check_sigterm_app sigOracleNotFound "daemon")
    ∧ check_sigterm_run sigOracleNotFound ([] ++ "daemon" :: ["worker"])
        = Event.log "Test Suite: Sigterm Checks" ::
            (([] : List String).flatMap (check_sigterm_app sigOracleNotFound)
              ++ check_sigterm_app sigOracleNotFound "daemon"
              ++ ["worker"].flatMap (check_sigterm_app sigOracleNotFound))
    ∧ check_sigkill_app sigOracleNotFound "daemon"
        = [Event.log ("Next checked application: \"" ++ "daemon" ++ "\""),
           Event.log ("Error, process \"" ++ "daemon" ++ "\" should be there, but cannot find it")]
    ∧ (∀ p s, Event.signal p s ∉ check_sigkill_app sigOracleNotFound "daemon")
    ∧ (∀ n, Event.sleep n ∉ check_sigkill_app sigOracleNotFound "daemon")) :=
  ⟨Or.inl rfl,
   signal_probe_notfound_skips sigOracleNotFound "daemon" [] ["worker"]
     (Or.inl rfl)⟩

/-- C10: the sigkill phase iterates the concatenation of the shuffled
sigkill catalog entry and the independently shuffled sigterm catalog
entry; the agenda is a permutation of the two configured lists combined,
every name occurs in it exactly as often as in the two lists together,
and every sigterm-configured target is announced (and hence probed) by
the sigkill run. -/
theorem sigkill_agenda_union (σ : SigOracle)
    (s₁ s₂ : List String → List String)
    (h₁ : (s₁ (APPLICATIONS "sigkill")).Perm (APPLICATIONS "sigkill"))
    (h₂ : (s₂ (APPLICATIONS "sigterm")).Perm (APPLICATIONS "sigterm")) :
    check_sigkill_agenda s₁ s₂
        = applications_shuffled s₁ "sigkill" ++ applications_shuffled s₂ "sigterm"
    ∧ (check_sigkill_agenda s₁ s₂).Perm
        (APPLICATIONS "sigkill" ++ APPLICATIONS "sigterm")
    ∧ (∀ a, (check_sigkill_agenda s₁ s₂).count a
        = (APPLICATIONS "sigkill").count a + (APPLICATIONS "sigterm").count a)
    ∧ ∀ a ∈ APPLICATIONS "sigterm",
        Event.log ("Next checked application: \"" ++ a ++ "\"")
          ∈ check_sigkill_run σ s₁ s₂ := by
  have hperm : (check_sigkill_agenda s₁ s₂).Perm
      (APPLICATIONS "sigkill" ++ APPLICATIONS "sigterm") :=
    List.Perm.append h₁ h₂
  refine ⟨rfl, hperm, ?_, ?_⟩
  · intro a
    rw [hperm.count_eq, List.count_append]
  · intro a ha
    have hmem : a ∈ check_sigkill_agenda s₁ s₂ := by
      have : a ∈ applications_shuffled s₂ "sigterm" := h₂.mem_iff.mpr ha
      exact List.mem_append_right _ this
    have hhead : Event.log ("Next checked application: \"" ++ a ++ "\"")
        ∈ check_sigkill_app σ a := by
      rw [check_sigkill_app]; exact List.mem_cons_self _ _
    rw [check_sigkill_run]
    exact List.mem_cons_of_mem _ (List.mem_flatMap.mpr ⟨a, hmem, hhead⟩)

/-- Witness for the sigkill agenda theorem with identity shuffles. -/
theorem sigkill_agenda_union_witness :
    ((id (APPLICATIONS "sigkill")).Perm (APPLICATIONS "sigkill")
      ∧ (id (APPLICATIONS "sigterm")).Perm (APPLICATIONS "sigterm"))
    ∧ (check_sigkill_agenda id id
        = applications_shuffled id "sigkill" ++ applications_shuffled id "sigterm"
    ∧ (check_sigkill_agenda id id).Perm
        (APPLICATIONS "sigkill" ++ APPLICATIONS "sigterm")
    ∧ (∀ a, (check_sigkill_agenda id id).count a
        = (APPLICATIONS "sigkill").count a + (APPLICATIONS "sigterm").count a)
    ∧ ∀ a ∈ APPLICATIONS "sigterm",
        Event.log ("Next checked application: \"" ++ a ++ "\"")
          ∈ check_sigkill_run sigOracleNotFound id id) :=
  ⟨⟨List.Perm.refl _, List.Perm.refl _⟩,
   sigkill_agenda_union sigOracleNotFound id id (List.Perm.refl _)
     (List.Perm.refl _)⟩

/-- On a readable status the inspector always returns an answer, never an
exception. -/
theorem isdbg_readable (s : StatusRead) (h : s ≠ StatusRead.unreadable) :
    ∃ b, is_process_debugged_no_zombie s = Except.ok b := by
  cases s with
  | unreadable => exact absurd rfl h
  | ok t st =>
      by_cases h0 : t = 0
      · exact ⟨false, by simp [is_process_debugged_no_zombie, h0]⟩
      · by_cases hz : strContains st "zombie" = true
        · exact ⟨false, by simp [is_process_debugged_no_zombie, h0, hz]⟩
        · exact ⟨true, by simp [is_process_debugged_no_zombie, h0, hz]⟩

/-- Complete characterization of the polling loop from index `probe` with
`fuel` remaining iterations, given that every status read in the window
succeeds: either no iteration in the window flips and the loop returns
still-frozen after entering exactly `fuel` more iterations, or the loop
returns recovered right after the first flipping iteration. -/
theorem ptraceLoopAux_spec (app : String) (pid : Nat) (alive : Nat → Bool)
    (status : Nat → StatusRead) :
    ∀ fuel probe,
      (∀ i, probe ≤ i → i < probe + fuel → status i ≠ StatusRead.unreadable) →
      ((ptraceLoopAux app pid alive status probe fuel).2
            = Except.ok (false, probe + fuel)
        ∧ ∀ j, probe ≤ j → j < probe + fuel → ¬ loopFlip alive status j)
      ∨ (∃ k, probe ≤ k ∧ k < probe + fuel
        ∧ (ptraceLoopAux app pid alive status probe fuel).2
            = Except.ok (true, k + 1)
        ∧ loopFlip alive status k
        ∧ ∀ j, probe ≤ j → j < k → ¬ loopFlip alive status j) := by
  intro fuel
  induction fuel with
  | zero =>
      intro probe h
      left
      refine ⟨by simp [ptraceLoopAux], ?_⟩
      intro j hj₁ hj₂
      omega
  | succ fuel ih =>
      intro probe h
      by_cases ha : alive probe = false
      · right
        refine ⟨probe, le_refl _, by omega, ?_, Or.inl ha, ?_⟩
        · simp [ptraceLoopAux, ha]
        · intro j hj₁ hj₂; omega
      · have ha' : alive probe = true := by
          cases hv : alive probe
          · exact absurd hv ha
          · rfl
        have hs : status probe ≠ StatusRead.unreadable :=
          h probe (le_refl _) (by omega)
        obtain ⟨b, hb⟩ := isdbg_readable (status probe) hs
        cases b
        · right
          refine ⟨probe, le_refl _, by omega, ?_, Or.inr hb, ?_⟩
          · simp [ptraceLoopAux, ha', hb]
          · intro j hj₁ hj₂; omega
        · have hnf : ¬ loopFlip alive status probe := by
            intro hf
            rcases hf with hf | hf
            · rw [ha'] at hf; exact Bool.noConfusion hf
            · rw [hb] at hf
              exact Bool.noConfusion (Except.ok.inj hf)
          have heval : (ptraceLoopAux app pid alive status probe (fuel + 1)).2
              = (ptraceLoopAux app pid alive status (probe + 1) fuel).2 := by
            simp [ptraceLoopAux, ha', hb]
          have hrec := ih (probe + 1)
            (fun i hi₁ hi₂ => h i (by omega) (by omega))
          rcases hrec with ⟨heq, hnone⟩ | ⟨k, hk₁, hk₂, hk₃, hk₄, hk₅⟩
          · left
            constructor
            · rw [heval, heq]
              have harith : probe + 1 + fuel = probe + (fuel + 1) := by omega
              rw [harith]
            · intro j hj₁ hj₂
              by_cases hjp : j = probe
              · rw [hjp]; exact hnf
              · exact hnone j (by omega) (by omega)
          · right
            refine ⟨k, by omega, by omega, by rw [heval]; exact hk₃, hk₄, ?_⟩
            intro j hj₁ hj₂
            by_cases hjp : j = probe
            · rw [hjp]; exact hnf
            · exact hk₅ j (by omega) hj₂

/-- Every sleep the polling loop emits has the fixed poll interval as its
duration. -/
theorem ptraceLoopAux_sleep_only (app : String) (pid : Nat)
    (alive : Nat → Bool) (status : Nat → StatusRead) :
    ∀ fuel probe n,
      Event.sleep n ∈ (ptraceLoopAux app pid alive status probe fuel).1 →
      n = ptrace_sleeptime := by
  intro fuel
  induction fuel with
  | zero =>
      intro probe n hn
      simp [ptraceLoopAux] at hn
  | succ fuel ih =>
      intro probe n hn
      by_cases ha : alive probe = false
      · simp [ptraceLoopAux, ha] at hn
      · have ha' : alive probe = true := by
          cases hv : alive probe
          · exact absurd hv ha
          · rfl
        rcases hb : is_process_debugged_no_zombie (status probe) with e | b
        · simp [ptraceLoopAux, ha', hb] at hn
        · cases b
          · simp [ptraceLoopAux, ha', hb] at hn
          · have hstep : (ptraceLoopAux app pid alive status probe (fuel + 1)).1
                = Event.log (ptraceStillMsg app pid)
                  :: Event.log (ptraceWaitMoreMsg probe)
                  :: Event.sleep ptrace_sleeptime
                  :: (ptraceLoopAux app pid alive status (probe + 1) fuel).1 := by
              simp [ptraceLoopAux, ha', hb]
            rw [hstep] at hn
            rcases List.mem_cons.mp hn with h1 | hn
            · exact absurd h1 (by simp)
            rcases List.mem_cons.mp hn with h1 | hn
            · exact absurd h1 (by simp)
            rcases List.mem_cons.mp hn with h1 | hn
            · exact Event.sleep.inj h1
            · exact ih (probe + 1) n hn

/-- C5 as amended: when every status read of the window succeeds, the
freeze-probe polling loop either observes no flip in its ten iterations
and returns still-frozen after entering exactly ten iterations, or
returns recovered right after the first iteration at which the process
is not alive or not debugged; and every pause it takes is the fixed
five-second poll interval. -/
theorem freeze_loop_bounded_first_flip (app : String) (pid : Nat)
    (alive : Nat → Bool) (status : Nat → StatusRead)
    (hread : ∀ i, i < ptrace_iterations → status i ≠ StatusRead.unreadable) :
    (((ptrace_stop_wait_until_killed app pid alive status).2
          = Except.ok (false, ptrace_iterations)
        ∧ ∀ j, j < ptrace_iterations → ¬ loopFlip alive status j)
      ∨ (∃ k, k < ptrace_iterations
        ∧ (ptrace_stop_wait_until_killed app pid alive status).2
            = Except.ok (true, k + 1)
        ∧ loopFlip alive status k
        ∧ ∀ j, j < k → ¬ loopFlip alive status j))
    ∧ ∀ n, Event.sleep n ∈ (ptrace_stop_wait_until_killed app pid alive status).1 →
        n = ptrace_sleeptime := by
  have h2 : (ptrace_stop_wait_until_killed app pid alive status).2
      = (ptraceLoopAux app pid alive status 0 ptrace_iterations).2 := rfl
  have h1 : (ptrace_stop_wait_until_killed app pid alive status).1
      = Event.log ("Wait " ++ toString (ptrace_iterations * ptrace_sleeptime) ++ " seconds until application is restarted")
        :: (ptraceLoopAux app pid alive status 0 ptrace_iterations).1 := rfl
  constructor
  · have hspec := ptraceLoopAux_spec app pid alive status ptrace_iterations 0
      (fun i _ hi => hread i (by omega))
    rcases hspec with ⟨heq, hnone⟩ | ⟨k, hk₀, hk₁, hk₂, hk₃, hk₄⟩
    · left
      constructor
      · rw [h2, heq]; norm_num
      · intro j hj; exact hnone j (by omega) (by omega)
    · right
      exact ⟨k, by omega, by rw [h2]; exact hk₂, hk₃,
        fun j hj => hk₄ j (by omega) hj⟩
  · intro n hn
    rw [h1] at hn
    rcases List.mem_cons.mp hn with hx | hx
    · exact absurd hx (by simp)
    · exact ptraceLoopAux_sleep_only app pid alive status ptrace_iterations 0 n hx

/-- C5 counterexample: if the first status read fails although the pid
existence check succeeded (the process exited in between), the polling
loop does not return the recovered verdict the claim assigns to an
iteration that is no longer debugger-attached; it propagates the
NameError of the undefined identifier Failure. -/
theorem freeze_loop_unreadable_error :
    statusC5 0 = StatusRead.unreadable
    ∧ aliveC5 0 = true
    ∧ (ptrace_stop_wait_until_killed "runner" 4242 aliveC5 statusC5).2
        = Except.error PyErr.nameErrorFailure :=
  ⟨rfl, rfl, rfl⟩

/-- Witness for the amended polling-loop theorem: the process stays alive
and debugged for three iterations and disappears at the fourth. -/
theorem freeze_loop_bounded_first_flip_witness :
    (∀ i, i < ptrace_iterations → statusW5 i ≠ StatusRead.unreadable)
    ∧ ((((ptrace_stop_wait_until_killed "runner" 4242 aliveW5 statusW5).2
          = Except.ok (false, ptrace_iterations)
        ∧ ∀ j, j < ptrace_iterations → ¬ loopFlip aliveW5 statusW5 j)
      ∨ (∃ k, k < ptrace_iterations
        ∧ (ptrace_stop_wait_until_killed "runner" 4242 aliveW5 statusW5).2
            = Except.ok (true, k + 1)
        ∧ loopFlip aliveW5 statusW5 k
        ∧ ∀ j, j < k → ¬ loopFlip aliveW5 statusW5 j))
    ∧ ∀ n, Event.sleep n ∈ (ptrace_stop_wait_until_killed "runner" 4242 aliveW5 statusW5).1 →
        n = ptrace_sleeptime) :=
  ⟨by decide,
   freeze_loop_bounded_first_flip "runner" 4242 aliveW5 statusW5 (by decide)⟩

/-- countPtrace on the empty trace. -/
theorem countPtrace_nil (req pid : Nat) : countPtrace req pid [] = 0 := rfl

/-- countPtrace ignores log events. -/
theorem countPtrace_log (req pid : Nat) (m : String) (es : List Event) :
    countPtrace req pid (Event.log m :: es) = countPtrace req pid es := rfl

/-- countPtrace ignores sleep events. -/
theorem countPtrace_sleep (req pid n : Nat) (es : List Event) :
    countPtrace req pid (Event.sleep n :: es) = countPtrace req pid es := rfl

/-- countPtrace ignores waitpid events. -/
theorem countPtrace_waitpid (req pid p : Nat) (es : List Event) :
    countPtrace req pid (Event.waitpid p :: es) = countPtrace req pid es := rfl

/-- countPtrace on a ptrace event. -/
theorem countPtrace_ptrace (req pid r p : Nat) (es : List Event) :
    countPtrace req pid (Event.ptrace r p :: es)
      = (if r = req ∧ p = pid then 1 else 0) + countPtrace req pid es := rfl

/-- countPtrace distributes over concatenation. -/
theorem countPtrace_append (req pid : Nat) (l₁ l₂ : List Event) :
    countPtrace req pid (l₁ ++ l₂)
      = countPtrace req pid l₁ + countPtrace req pid l₂ := by
  induction l₁ with
  | nil => rw [List.nil_append, countPtrace_nil, Nat.zero_add]
  | cons e es ih =>
      cases e with
      | log m => rw [List.cons_append, countPtrace_log, countPtrace_log, ih]
      | signal p s =>
          show countPtrace req pid (es ++ l₂)
              = countPtrace req pid (Event.signal p s :: es) + countPtrace req pid l₂
          rw [ih]; rfl
      | sleep n => rw [List.cons_append, countPtrace_sleep, countPtrace_sleep, ih]
      | ptrace r p =>
          rw [List.cons_append, countPtrace_ptrace, countPtrace_ptrace, ih,
            Nat.add_assoc]
      | waitpid p =>
          rw [List.cons_append, countPtrace_waitpid, countPtrace_waitpid, ih]

/-- The polling loop emits no ptrace events at all. -/
theorem ptraceLoopAux_no_ptrace (app : String) (pid : Nat)
    (alive : Nat → Bool) (status : Nat → StatusRead) (req p : Nat) :
    ∀ fuel probe,
      countPtrace req p (ptraceLoopAux app pid alive status probe fuel).1 = 0 := by
  intro fuel
  induction fuel with
  | zero => intro probe; rfl
  | succ fuel ih =>
      intro probe
      by_cases ha : alive probe = false
      · simp [ptraceLoopAux, ha, countPtrace_log, countPtrace_nil]
      · have ha' : alive probe = true := by
          cases hv : alive probe
          · exact absurd hv ha
          · rfl
        rcases hb : is_process_debugged_no_zombie (status probe) with e | b
        · simp [ptraceLoopAux, ha', hb, countPtrace_nil]
        · cases b
          · simp [ptraceLoopAux, ha', hb, countPtrace_log, countPtrace_nil]
          · have hstep : (ptraceLoopAux app pid alive status probe (fuel + 1)).1
                = Event.log (ptraceStillMsg app pid)
                  :: Event.log (ptraceWaitMoreMsg probe)
                  :: Event.sleep ptrace_sleeptime
                  :: (ptraceLoopAux app pid alive status (probe + 1) fuel).1 := by
              simp [ptraceLoopAux, ha', hb]
            rw [hstep, countPtrace_log, countPtrace_log, countPtrace_sleep, ih]

/-- The whole ptrace_stop_wait_until_killed trace contains no ptrace
events. -/
theorem countPtrace_ptrace_stop (app : String) (pid : Nat)
    (alive : Nat → Bool) (status : Nat → StatusRead) (req p : Nat) :
    countPtrace req p (ptrace_stop_wait_until_killed app pid alive status).1 = 0 := by
  have h1 : (ptrace_stop_wait_until_killed app pid alive status).1
      = Event.log ("Wait " ++ toString (ptrace_iterations * ptrace_sleeptime) ++ " seconds until application is restarted")
        :: (ptraceLoopAux app pid alive status 0 ptrace_iterations).1 := rfl
  rw [h1, countPtrace_log, ptraceLoopAux_no_ptrace]

/-- C6 as amended: when the initial wait reports a genuine stop and every
status read of the polling window succeeds, every handle processing of
the freeze probe performs exactly one attach and exactly one detach, on
every exit path of the polling loop, the exhausted-timeout path
included. -/
theorem freeze_probe_attach_detach_paired (app : String)
    (pid wstopsig : Nat) (alive : Nat → Bool) (status : Nat → StatusRead)
    (hread : ∀ i, i < ptrace_iterations → status i ≠ StatusRead.unreadable) :
    countPtrace PTRACE_ATTACH pid
        (check_ptrace_stop_pid app pid true wstopsig alive status).1 = 1
    ∧ countPtrace PTRACE_DETACH pid
        (check_ptrace_stop_pid app pid true wstopsig alive status).1 = 1 := by
  obtain ⟨r, n, hok⟩ : ∃ r n,
      (ptrace_stop_wait_until_killed app pid alive status).2
        = Except.ok (r, n) := by
    have hspec := ptraceLoopAux_spec app pid alive status ptrace_iterations 0
      (fun i _ hi => hread i (by omega))
    rcases hspec with ⟨heq, -⟩ | ⟨k, -, -, heq, -, -⟩
    · exact ⟨false, 0 + ptrace_iterations, heq⟩
    · exact ⟨true, k + 1, heq⟩
  have h0 : check_ptrace_stop_pid app pid true wstopsig alive status
      = (match (ptrace_stop_wait_until_killed app pid alive status).2 with
        | Except.error e =>
            (ptraceHead app pid ++ [ptraceStopLog app pid wstopsig]
              ++ (ptrace_stop_wait_until_killed app pid alive status).1,
             Except.error e)
        | Except.ok (restarted, _) =>
            (ptraceHead app pid ++ [ptraceStopLog app pid wstopsig]
              ++ (ptrace_stop_wait_until_killed app pid alive status).1
              ++ ptraceOutcomeLogs restarted
              ++ [Event.ptrace PTRACE_DETACH pid],
             Except.ok restarted)) := rfl
  have htrace : (check_ptrace_stop_pid app pid true wstopsig alive status).1
      = ptraceHead app pid ++ [ptraceStopLog app pid wstopsig]
        ++ (ptrace_stop_wait_until_killed app pid alive status).1
        ++ ptraceOutcomeLogs r ++ [Event.ptrace PTRACE_DETACH pid] := by
    rw [h0, hok]
  have hout : ∀ req p, countPtrace req p (ptraceOutcomeLogs r) = 0 := by
    intro req p
    cases r <;> simp [ptraceOutcomeLogs, countPtrace_log, countPtrace_nil]
  have hstop : ∀ req p,
      countPtrace req p [ptraceStopLog app pid wstopsig] = 0 := by
    intro req p
    rw [ptraceStopLog, countPtrace_log, countPtrace_nil]
  constructor
  · rw [htrace, countPtrace_append, countPtrace_append, countPtrace_append,
      countPtrace_append, hout, hstop, countPtrace_ptrace_stop]
    simp [ptraceHead, countPtrace_log, countPtrace_ptrace, countPtrace_waitpid,
      countPtrace_nil, PTRACE_ATTACH, PTRACE_DETACH]
  · rw [htrace, countPtrace_append, countPtrace_append, countPtrace_append,
      countPtrace_append, hout, hstop, countPtrace_ptrace_stop]
    simp [ptraceHead, countPtrace_log, countPtrace_ptrace, countPtrace_waitpid,
      countPtrace_nil, PTRACE_ATTACH, PTRACE_DETACH]

/-- C6 counterexample: the attach succeeds and the process stops, but the
second status read of the polling loop fails; the NameError propagates
out of the loop and the handle processing ends with one attach and zero
detach events, contradicting the claim that a matching detach happens on
every exit path. -/
theorem freeze_probe_detach_skipped_on_error :
    countPtrace PTRACE_ATTACH 4242
        (check_ptrace_stop_pid "runner" 4242 true 19 aliveW6 statusC6).1 = 1
    ∧ countPtrace PTRACE_DETACH 4242
        (check_ptrace_stop_pid "runner" 4242 true 19 aliveW6 statusC6).1 = 0
    ∧ (check_ptrace_stop_pid "runner" 4242 true 19 aliveW6 statusC6).2
        = Except.error PyErr.nameErrorFailure :=
  ⟨rfl, rfl, rfl⟩

/-- Witness for the attach/detach pairing theorem on the timeout path:
the process stays alive and debugged through all ten iterations, the
loop returns still-frozen, and the detach is still performed. -/
theorem freeze_probe_attach_detach_paired_witness :
    (∀ i, i < ptrace_iterations → statusW6 i ≠ StatusRead.unreadable)
    ∧ (countPtrace PTRACE_ATTACH 4242
          (check_ptrace_stop_pid "runner" 4242 true 19 aliveW6 statusW6).1 = 1
      ∧ countPtrace PTRACE_DETACH 4242
          (check_ptrace_stop_pid "runner" 4242 true 19 aliveW6 statusW6).1 = 1) :=
  ⟨by decide,
   freeze_probe_attach_detach_paired "runner" 4242 19 aliveW6 statusW6
     (by decide)⟩
